import Mathlib

/-!
Verification of the catalog-search core of `gobooklist` (package `booklist`).

The Go source is shallowly embedded: the network is modelled as a finite
trace of `CatalogResponse` values consumed one per HTTP request, and each
search function additionally produces the list of requests it issued, so
that claims about request counts and ordering are statable.  Go `int`
values are modelled as `Int`; Go strings as `String`.
-/

namespace GoBooklist

/-- Maximum number of publications returned in a response
(`maxHitsPerPage` in catalog.go). -/
def maxHitsPerPage : Int := 30

/-- PublicationInfo provides the name and media type for a publication
(catalog.go `PublicationInfo`). -/
structure PublicationInfo where
  media : String
  publication : String
deriving DecidableEq, Repr

/-- CatalogInfo carries the search parameters (catalog.go `CatalogInfo`);
the logger field is omitted as it only produces debug output. -/
structure CatalogInfo where
  url : String
  author : String
  media : String
deriving DecidableEq, Repr

/-- facetFilter: in catalog.go this is a `map[string]string`; every filter
built by `PublicationSearch` has exactly the three keys `facetDisplay`,
`facetValue`, `facetName`, modelled as a record. -/
structure FacetFilter where
  facetDisplay : String
  facetValue : String
  facetName : String
deriving DecidableEq, Repr

/-- resourceInfo: in catalog.go this is an untyped `map[string]interface{}`.
Only the three fields read by `applyLocalFilters` matter; for each, `none`
models a field that is absent or not a string (the Go type assertion
`.(string)` failing). -/
structure ResourceInfo where
  shortAuthor : Option String
  format : Option String
  shortTitle : Option String
deriving DecidableEq, Repr

/-- One HTTP exchange as seen by the client: `ok` is false when the POST
failed at transport level, returned a non-200 status, or the body did not
decode; `success` and `totalHits` are the fields read from a count
response; `resources` is the field read from a fetch response (Go's JSON
decoding zero-fills fields missing from the body, which the adversarial
choice of values covers). -/
structure CatalogResponse where
  ok : Bool
  success : Bool
  totalHits : Int
  resources : List ResourceInfo
deriving DecidableEq, Repr

/-- A request issued by the search, with the facet filters it carried:
`countReq` targets endpoint `search/count`, `fetchReq` targets `search`. -/
inductive Request where
  | countReq : List FacetFilter → Request
  | fetchReq : List FacetFilter → Request
deriving DecidableEq, Repr

/-- Whether a request is a count request. -/
def Request.isCount : Request → Bool
  | .countReq _ => true
  | .fetchReq _ => false

/-- The two-facet filter set built at the top of each year-bucket iteration
of `PublicationSearch` (catalog.go lines 97–108): Year facet then Format
facet. -/
def mkFilters (c : CatalogInfo) (year : String) : List FacetFilter :=
  [⟨year, year, "Year"⟩, ⟨c.media, c.media, "Format"⟩]

/-- The per-resource body of the loop of `applyLocalFilters`
(catalog.go lines 199–226): skip if `shortAuthor` is not a string; default
`format` and `shortTitle` to "Unknown"; keep only on exact author
equality. -/
def localFilterOne (c : CatalogInfo) (p : ResourceInfo) : Option PublicationInfo :=
  match p.shortAuthor with
  | none => none
  | some author =>
    let format := p.format.getD "Unknown"
    let title := p.shortTitle.getD "Unknown"
    if c.author = author then some ⟨format, title⟩ else none

/-- applyLocalFilters (catalog.go): appends to the caller's accumulator the
kept, normalised records, in input order; modelled as the list of appended
records. -/
def applyLocalFilters (c : CatalogInfo) (pubs : List ResourceInfo) : List PublicationInfo :=
  pubs.filterMap (localFilterOne c)

/-- Error message of the precondition check of `PublicationSearch`
(catalog.go lines 87–90). -/
def validationMsg (c : CatalogInfo) : String :=
  "arguments must be non-null:  author=" ++ c.author ++ ", media=" ++ c.media ++ "'"

/-- Error message of `publicationsCount` when the response's success flag
is false (catalog.go lines 162–165). -/
def countFailMsg : String :=
  "failed to retrieve total number of matches on author, media and year"

/-- Stand-in for the transport/decode error strings produced by
`issueRequest` (they embed the URL and underlying cause, which the
response model does not carry). -/
def transportFailMsg : String := "POST request failed"

/-- Error message of the count-mismatch check (catalog.go lines 139–143). -/
def mismatchMsg (expected current : Int) : String :=
  "Received more publications than expected; expected " ++ toString expected ++
    " currently have " ++ toString current

/-- publicationsCount (catalog.go lines 150–169), applied to the response
its single request obtained: transport/decode failure propagates; a false
success flag is an error; otherwise the reported total is returned. -/
def publicationsCount (r : CatalogResponse) : Except String Int :=
  if r.ok then
    if r.success then Except.ok r.totalHits
    else Except.error countFailMsg
  else Except.error transportFailMsg

/-- publications (catalog.go lines 172–186), applied to the response its
single request obtained: transport/decode failure propagates; otherwise
the decoded resource list is returned. -/
def publications (r : CatalogResponse) : Except String (List ResourceInfo) :=
  if r.ok then Except.ok r.resources
  else Except.error transportFailMsg

/-- The inner pagination loop of `PublicationSearch` (catalog.go lines
123–136): while `currentCount < totalCount`, issue a fetch request
(consuming the next response of the trace; an exhausted trace models a
request that gets no answer, i.e. a transport error), add the page length
to `currentCount` and append the locally filtered page to the
accumulator.  Returns the final accumulator, final `currentCount` and the
unconsumed trace, alongside the request log. -/
def fetchLoop (c : CatalogInfo) (filters : List FacetFilter) (totalCount currentCount : Int)
    (env : List CatalogResponse) (acc : List PublicationInfo) (log : List Request) :
    Except String (List PublicationInfo × Int × List CatalogResponse) × List Request :=
  if currentCount < totalCount then
    match env with
    | [] => (Except.error transportFailMsg, log ++ [Request.fetchReq filters])
    | r :: env' =>
      match publications r with
      | Except.error e => (Except.error e, log ++ [Request.fetchReq filters])
      | Except.ok pubs =>
        fetchLoop c filters totalCount (currentCount + (pubs.length : Int)) env'
          (acc ++ applyLocalFilters c pubs) (log ++ [Request.fetchReq filters])
  else
    (Except.ok (acc, currentCount, env), log)

/-- The year-bucket loop of `PublicationSearch` (catalog.go lines 96–144),
over the remaining bucket list: build the two-facet filter, issue the
count request, skip the bucket on a zero total, otherwise run the
pagination loop and perform the count-mismatch check.  The Go function
returns the pair `([]PublicationInfo, error)`; every error return site in
the source is literally `return nil, err`, modelled as the pair
`([], some err)`. -/
def goBuckets (c : CatalogInfo) (years : List String) (env : List CatalogResponse)
    (acc : List PublicationInfo) (log : List Request) :
    (List PublicationInfo × Option String) × List Request :=
  match years with
  | [] => ((acc, none), log)
  | year :: rest =>
    let filters := mkFilters c year
    match env with
    | [] => (([], some transportFailMsg), log ++ [Request.countReq filters])
    | r :: env' =>
      match publicationsCount r with
      | Except.error e => (([], some e), log ++ [Request.countReq filters])
      | Except.ok totalCount =>
        if totalCount = 0 then
          goBuckets c rest env' acc (log ++ [Request.countReq filters])
        else
          match fetchLoop c filters totalCount 0 env' acc (log ++ [Request.countReq filters]) with
          | (Except.error e, log') => (([], some e), log')
          | (Except.ok (acc', currentCount, env''), log') =>
            if currentCount > totalCount then
              (([], some (mismatchMsg totalCount currentCount)), log')
            else
              goBuckets c rest env'' acc' log'

/-- PublicationSearch (catalog.go lines 86–147): validate the query, then
process the fixed bucket list `["unknown", yearFilter]`, where
`yearFilter` is the package-level current-year string (computed from the
wall clock at process start, passed here as a parameter). -/
def publicationSearch (c : CatalogInfo) (yearFilter : String) (env : List CatalogResponse) :
    (List PublicationInfo × Option String) × List Request :=
  if c.author = "" ∨ c.media = "" then
    (([], some (validationMsg c)), [])
  else
    goBuckets c ["unknown", yearFilter] env [] []

/-- makeTimestamp (catalog.go lines 306–311): increment the process-wide
counter, divide the UTC nanosecond clock by 10^6 (Go integer division
truncates toward zero, `Int.tdiv`) and add the counter.  Go renders the
value with `%d`; the model keeps the numeric value.  Returns the token
value and the new counter. -/
def makeTimestamp (utcNanos : Int) (inc : Int) : Int × Int :=
  let inc' := inc + 1
  let timestamp := Int.tdiv utcNanos 1000000
  (timestamp + inc', inc')

/-- The sequence of token values generated by successive `makeTimestamp`
calls from counter `inc`, one call per clock observation in `ts`. -/
def tokenSeq (inc : Int) : List Int → List Int
  | [] => []
  | t :: ts =>
    let r := makeTimestamp t inc
    r.1 :: tokenSeq r.2 ts

/-- searchFilter (catalog.go lines 58–67): the JSON POST body. -/
structure SearchFilter where
  addToHistory : Bool
  dbCodes : List String
  hitsPerPage : Int
  sortCriteria : String
  startIndex : Int
  targetAudience : String
  facetFilters : List FacetFilter
  searchTerm : String
deriving DecidableEq, Repr

/-- The POST body built by `issueRequest` (catalog.go lines 245–251):
only the listed fields are set; the remaining fields keep their Go zero
values (`DbCodes` nil, `StartIndex` 0, `TargetAudience` empty). -/
def buildSearchFilter (c : CatalogInfo) (filters : List FacetFilter) : SearchFilter :=
  { addToHistory := true
    dbCodes := []
    hitsPerPage := maxHitsPerPage
    sortCriteria := "NewlyAdded"
    startIndex := 0
    targetAudience := ""
    facetFilters := filters
    searchTerm := c.author }

/-- The HTTP POST request assembled by `issueRequest`: target URL
`c.URL + endpt`, the single query parameter `_` carrying the cache-bust
token, the JSON body, and the fixed header set. -/
structure HttpRequest where
  url : String
  cacheBustParam : String × Int
  body : SearchFilter
  headers : List (String × String)
deriving DecidableEq, Repr

/-- issueRequest (catalog.go lines 230–293), request-construction part:
compose the URL from the base URL and endpoint, generate a fresh
cache-bust token (advancing the process-wide counter), and fill in the
fixed body and headers.  The transport part (executing the POST and
decoding the response) is modelled by `CatalogResponse` consumption in
the search functions. -/
def issueRequest (c : CatalogInfo) (endpt : String) (filters : List FacetFilter)
    (utcNanos : Int) (inc : Int) : HttpRequest × Int :=
  let r := makeTimestamp utcNanos inc
  ({ url := c.url ++ endpt
     cacheBustParam := ("_", r.1)
     body := buildSearchFilter c filters
     headers := [("X-Requested-With", "XMLHttpRequest"),
                 ("Content-Type", "application/json; charset=utf-8"),
                 ("Accept", "application/json, text/javascript, */*; q=0.01"),
                 ("Accept-Language", "en-US,en;q=0.8"),
                 ("Ls2pac-config-type", "pac"),
                 ("Ls2pac-config-name", "default - Go Live load"),
                 ("Referer", c.url)] }, r.2)

/-- DefaultMediaType (config.go line 75). -/
def DefaultMediaType : String := "Book"

/-- AuthorInfo (config.go lines 86–90). -/
structure AuthorInfo where
  firstname : String
  lastname : String
  media : String
deriving DecidableEq, Repr

/-- Config (config.go lines 79–83). -/
structure Config where
  url : String
  media : String
  authors : List AuthorInfo
deriving DecidableEq, Repr

/-- The default-media computation at the top of `printSearchResults`
(cmd/booklist main, lines 71–75), transcribed literally:
`defaultMedia := booklist.DefaultMediaType;
if config.Media == "" { defaultMedia = config.Media }`. -/
def searchDefaultMedia (config : Config) : String :=
  if config.media = "" then config.media else DefaultMediaType

/-- The per-author media selection of `printSearchResults`
(cmd/booklist main, lines 80–83): the author's override when non-empty,
otherwise `searchDefaultMedia`. -/
def searchMediaForAuthor (config : Config) (authorInfo : AuthorInfo) : String :=
  if authorInfo.media ≠ "" then authorInfo.media else searchDefaultMedia config

/-- Modelled from the spec: the intended media selection — "an optional
default media type (falls back to a fixed default string if absent)" with
"an optional per-author media-type override" — i.e. the author's override
when present, else the configuration's media type when present, else
`DefaultMediaType`.  Stated separately to compare with what
`printSearchResults` actually computes. -/
def specMediaForAuthor (config : Config) (authorInfo : AuthorInfo) : String :=
  if authorInfo.media ≠ "" then authorInfo.media
  else if config.media ≠ "" then config.media
  else DefaultMediaType

/-! Helper lemmas shared by the claim theorems. -/

theorem publications_of_ok {r : CatalogResponse} (h : r.ok = true) :
    publications r = Except.ok r.resources := by
  simp [publications, h]

theorem publicationsCount_of_ok {r : CatalogResponse} (h : r.ok = true)
    (hs : r.success = true) : publicationsCount r = Except.ok r.totalHits := by
  simp [publicationsCount, h, hs]

theorem publicationsCount_of_fail {r : CatalogResponse} (h : r.ok = true)
    (hs : r.success = false) : publicationsCount r = Except.error countFailMsg := by
  simp [publicationsCount, h, hs]

/-- C2: a query with an empty author name or an empty media type makes
`PublicationSearch` return the validation error naming the offending
fields, with the empty result list and an empty request log — no network
request is issued. -/
theorem publicationSearch_validation (c : CatalogInfo) (y : String)
    (env : List CatalogResponse) (h : c.author = "" ∨ c.media = "") :
    publicationSearch c y env = (([], some (validationMsg c)), []) := by
  unfold publicationSearch
  rw [if_pos h]

/-- Witness for C2 at a concrete query with an empty author name. -/
theorem publicationSearch_validation_witness :
    publicationSearch ⟨"https://x/", "", "Book"⟩ "2025" [] =
      (([], some (validationMsg ⟨"https://x/", "", "Book"⟩)), []) :=
  publicationSearch_validation ⟨"https://x/", "", "Book"⟩ "2025" [] (Or.inl rfl)

/-- C3: the local filter drops a record without a `shortAuthor` string
field; keeps a record whose `shortAuthor` equals the query author exactly,
defaulting a missing `format` or `shortTitle` to "Unknown"; and drops any
record whose `shortAuthor` differs from the query author. -/
theorem applyLocalFilters_spec :
    (∀ (c : CatalogInfo) (p : ResourceInfo) (ps : List ResourceInfo),
        p.shortAuthor = none →
        applyLocalFilters c (p :: ps) = applyLocalFilters c ps) ∧
    (∀ (c : CatalogInfo) (p : ResourceInfo) (ps : List ResourceInfo),
        p.shortAuthor = some c.author →
        applyLocalFilters c (p :: ps) =
          ⟨p.format.getD "Unknown", p.shortTitle.getD "Unknown"⟩ ::
            applyLocalFilters c ps) ∧
    (∀ (c : CatalogInfo) (p : ResourceInfo) (ps : List ResourceInfo) (a : String),
        p.shortAuthor = some a → a ≠ c.author →
        applyLocalFilters c (p :: ps) = applyLocalFilters c ps) := by
  refine ⟨?_, ?_, ?_⟩
  · intro c p ps h
    simp [applyLocalFilters, List.filterMap_cons, localFilterOne, h]
  · intro c p ps h
    simp [applyLocalFilters, List.filterMap_cons, localFilterOne, h]
  · intro c p ps a h hne
    simp [applyLocalFilters, List.filterMap_cons, localFilterOne, h, Ne.symm hne]

/-- Witness for C3: one record of each kind, evaluated concretely. -/
theorem applyLocalFilters_spec_witness :
    applyLocalFilters ⟨"u", "A", "Book"⟩ [⟨none, some "F", some "T"⟩] = [] ∧
    applyLocalFilters ⟨"u", "A", "Book"⟩ [⟨some "A", none, none⟩] =
      [⟨"Unknown", "Unknown"⟩] ∧
    applyLocalFilters ⟨"u", "A", "Book"⟩ [⟨some "B", some "F", some "T"⟩] = [] := by
  refine ⟨?_, ?_, ?_⟩
  · exact (applyLocalFilters_spec.1 ⟨"u", "A", "Book"⟩ ⟨none, some "F", some "T"⟩ [] rfl).trans rfl
  · exact (applyLocalFilters_spec.2.1 ⟨"u", "A", "Book"⟩ ⟨some "A", none, none⟩ [] rfl).trans rfl
  · exact (applyLocalFilters_spec.2.2 ⟨"u", "A", "Book"⟩ ⟨some "B", some "F", some "T"⟩ []
      "B" rfl (by decide)).trans rfl

/-- C7: every request built by `issueRequest` targets
`catalogBaseURL ++ endpointPath`, carries the single query parameter `_`
with a fresh `makeTimestamp` token (advancing the counter), and its JSON
body has `addToHistory = true`, `hitsPerPage = 30`,
`sortCriteria = "NewlyAdded"`, `startIndex = 0`, `facetFilters` equal to
the caller's filter set (two entries when built by `mkFilters`) and
`searchTerm` equal to the query's author name. -/
theorem issueRequest_shape (c : CatalogInfo) (endpt : String)
    (filters : List FacetFilter) (t inc : Int) :
    (issueRequest c endpt filters t inc).1.url = c.url ++ endpt ∧
    (issueRequest c endpt filters t inc).1.cacheBustParam =
      ("_", (makeTimestamp t inc).1) ∧
    (issueRequest c endpt filters t inc).2 = (makeTimestamp t inc).2 ∧
    (issueRequest c endpt filters t inc).1.body.addToHistory = true ∧
    (issueRequest c endpt filters t inc).1.body.hitsPerPage = 30 ∧
    (issueRequest c endpt filters t inc).1.body.sortCriteria = "NewlyAdded" ∧
    (issueRequest c endpt filters t inc).1.body.startIndex = 0 ∧
    (issueRequest c endpt filters t inc).1.body.facetFilters = filters ∧
    (issueRequest c endpt filters t inc).1.body.searchTerm = c.author ∧
    (∀ year, (mkFilters c year).length = 2) :=
  ⟨rfl, rfl, rfl, rfl, rfl, rfl, rfl, rfl, rfl, fun _ => rfl⟩

/-- C9 (code bug): `printSearchResults` inverts the default-media check.
With a configured default of "eBook" and no per-author override it
searches with "Book"; with no configured default it searches with the
empty string (which `PublicationSearch` then rejects) instead of "Book".
`specMediaForAuthor` evaluates the spec's intended rule at the same
inputs. -/
theorem searchMediaForAuthor_code_bug :
    searchMediaForAuthor ⟨"https://x/", "eBook", []⟩ ⟨"A", "B", ""⟩ = "Book" ∧
    specMediaForAuthor ⟨"https://x/", "eBook", []⟩ ⟨"A", "B", ""⟩ = "eBook" ∧
    searchMediaForAuthor ⟨"https://x/", "", []⟩ ⟨"A", "B", ""⟩ = "" ∧
    specMediaForAuthor ⟨"https://x/", "", []⟩ ⟨"A", "B", ""⟩ = "Book" := by
  refine ⟨?_, ?_, ?_, ?_⟩ <;> decide

/-- Truncated division by 10^6 is monotone on nonnegative integers
(Go's `/` on nonnegative `int64` values). -/
theorem tdiv_million_mono {a b : Int} (ha : 0 ≤ a) (hab : a ≤ b) :
    Int.tdiv a 1000000 ≤ Int.tdiv b 1000000 := by
  have hb : 0 ≤ b := le_trans ha hab
  lift a to ℕ using ha
  lift b to ℕ using hb
  have h1000000 : ((1000000 : ℕ) : ℤ) = (1000000 : ℤ) := by norm_cast
  rw [← h1000000, ← Int.ofNat_tdiv, ← Int.ofNat_tdiv]
  exact_mod_cast Nat.div_le_div_right (by exact_mod_cast hab)

/-- C8: two successive `makeTimestamp` calls yield different tokens even
when they observe the same wall-clock millisecond; under a nonnegative,
non-decreasing clock a successive token is strictly larger, and the whole
token sequence generated across the process lifetime is strictly
increasing. -/
theorem makeTimestamp_fresh_tokens :
    (∀ t₁ t₂ i, Int.tdiv t₁ 1000000 = Int.tdiv t₂ 1000000 →
        (makeTimestamp t₂ (makeTimestamp t₁ i).2).1 ≠ (makeTimestamp t₁ i).1) ∧
    (∀ t₁ t₂ i, 0 ≤ t₁ → t₁ ≤ t₂ →
        (makeTimestamp t₁ i).1 < (makeTimestamp t₂ (makeTimestamp t₁ i).2).1) ∧
    (∀ (i : Int) (ts : List Int), (∀ t ∈ ts, 0 ≤ t) → ts.Chain' (· ≤ ·) →
        (tokenSeq i ts).Chain' (· < ·)) := by
  have hstep : ∀ t₁ t₂ i, 0 ≤ t₁ → t₁ ≤ t₂ →
      (makeTimestamp t₁ i).1 < (makeTimestamp t₂ (makeTimestamp t₁ i).2).1 := by
    intro t₁ t₂ i h0 hle
    have := tdiv_million_mono h0 hle
    simp only [makeTimestamp]
    omega
  refine ⟨?_, hstep, ?_⟩
  · intro t₁ t₂ i h
    simp only [makeTimestamp]
    omega
  · intro i ts
    induction ts generalizing i with
    | nil => intro _ _; simp [tokenSeq]
    | cons t rest ih =>
      intro hnn hchain
      match rest with
      | [] => simp [tokenSeq]
      | t' :: rest' =>
        have h1 : (0 : Int) ≤ t := hnn t (List.mem_cons_self t _)
        have h2 : t ≤ t' := (List.chain'_cons.mp hchain).1
        have htail : (tokenSeq (makeTimestamp t i).2 (t' :: rest')).Chain' (· < ·) :=
          ih (makeTimestamp t i).2 (fun x hx => hnn x (List.mem_cons_of_mem t hx))
            (List.chain'_cons.mp hchain).2
        have hhead : (makeTimestamp t i).1 < (makeTimestamp t' (makeTimestamp t i).2).1 :=
          hstep t t' i h1 h2
        simp only [tokenSeq]
        exact List.chain'_cons.mpr ⟨hhead, htail⟩

/-- Witness for C8: concrete clock values, two in the same millisecond. -/
theorem makeTimestamp_fresh_tokens_witness :
    (makeTimestamp 1500001 (makeTimestamp 1500000 1).2).1 ≠ (makeTimestamp 1500000 1).1 ∧
    (makeTimestamp 1500000 1).1 < (makeTimestamp 2500000 (makeTimestamp 1500000 1).2).1 ∧
    (tokenSeq 1 [1500000, 1500000, 2500000]).Chain' (· < ·) := by
  refine ⟨?_, ?_, ?_⟩
  · exact makeTimestamp_fresh_tokens.1 1500000 1500001 1 (by decide)
  · exact makeTimestamp_fresh_tokens.2.1 1500000 2500000 1 (by decide) (by decide)
  · exact makeTimestamp_fresh_tokens.2.2 1 [1500000, 1500000, 2500000]
      (by decide) (by simp [List.chain'_cons])

theorem fetchLoop_stop (c : CatalogInfo) (f : List FacetFilter) (t cnt : Int)
    (env : List CatalogResponse) (acc : List PublicationInfo) (log : List Request)
    (h : ¬ cnt < t) :
    fetchLoop c f t cnt env acc log = (Except.ok (acc, cnt, env), log) := by
  rw [fetchLoop.eq_def, if_neg h]

theorem fetchLoop_nil (c : CatalogInfo) (f : List FacetFilter) (t cnt : Int)
    (acc : List PublicationInfo) (log : List Request) (h : cnt < t) :
    fetchLoop c f t cnt [] acc log =
      (Except.error transportFailMsg, log ++ [Request.fetchReq f]) := by
  rw [fetchLoop.eq_def, if_pos h]

theorem fetchLoop_cons (c : CatalogInfo) (f : List FacetFilter) (t cnt : Int)
    (r : CatalogResponse) (env : List CatalogResponse) (acc : List PublicationInfo)
    (log : List Request) (h : cnt < t) (hok : r.ok = true) :
    fetchLoop c f t cnt (r :: env) acc log =
      fetchLoop c f t (cnt + (r.resources.length : Int)) env
        (acc ++ applyLocalFilters c r.resources) (log ++ [Request.fetchReq f]) := by
  rw [fetchLoop.eq_def, if_pos h]
  simp [publications_of_ok hok]

theorem fetchLoop_cons_bad (c : CatalogInfo) (f : List FacetFilter) (t cnt : Int)
    (r : CatalogResponse) (env : List CatalogResponse) (acc : List PublicationInfo)
    (log : List Request) (h : cnt < t) (hok : r.ok = false) :
    fetchLoop c f t cnt (r :: env) acc log =
      (Except.error transportFailMsg, log ++ [Request.fetchReq f]) := by
  rw [fetchLoop.eq_def, if_pos h]
  simp [publications, hok]

theorem fetchLoop_log_shape (c : CatalogInfo) (f : List FacetFilter) (t : Int) :
    ∀ (env : List CatalogResponse) (cnt : Int) (acc : List PublicationInfo)
      (log : List Request),
      ∃ n, (fetchLoop c f t cnt env acc log).2 =
        log ++ List.replicate n (Request.fetchReq f) := by
  intro env
  induction env with
  | nil =>
    intro cnt acc log
    by_cases h : cnt < t
    · exact ⟨1, by rw [fetchLoop_nil c f t cnt acc log h]; rfl⟩
    · exact ⟨0, by rw [fetchLoop_stop c f t cnt [] acc log h]; simp⟩
  | cons r env ih =>
    intro cnt acc log
    by_cases h : cnt < t
    · cases hok : r.ok
      · exact ⟨1, by rw [fetchLoop_cons_bad c f t cnt r env acc log h hok]; rfl⟩
      · obtain ⟨n, hn⟩ := ih (cnt + (r.resources.length : Int))
          (acc ++ applyLocalFilters c r.resources) (log ++ [Request.fetchReq f])
        refine ⟨n + 1, ?_⟩
        rw [fetchLoop_cons c f t cnt r env acc log h hok, hn]
        simp [List.replicate_succ]
    · exact ⟨0, by rw [fetchLoop_stop c f t cnt (r :: env) acc log h]; simp⟩

theorem countP_replicate_zero (p : Request → Bool) (n : ℕ) (a : Request)
    (h : p a = false) : (List.replicate n a).countP p = 0 := by
  induction n with
  | zero => simp
  | succ n ih => simp [List.replicate_succ, List.countP_cons, h, ih]

theorem fetchLoop_acc_prefix (c : CatalogInfo) (f : List FacetFilter) (t : Int)
    (acc₁ : List PublicationInfo) :
    ∀ (env : List CatalogResponse) (cnt : Int) (acc₂ : List PublicationInfo)
      (log : List Request),
      fetchLoop c f t cnt env (acc₁ ++ acc₂) log =
        (Except.map (fun x => (acc₁ ++ x.1, x.2)) (fetchLoop c f t cnt env acc₂ log).1,
         (fetchLoop c f t cnt env acc₂ log).2) := by
  intro env
  induction env with
  | nil =>
    intro cnt acc₂ log
    by_cases h : cnt < t
    · rw [fetchLoop_nil c f t cnt (acc₁ ++ acc₂) log h,
        fetchLoop_nil c f t cnt acc₂ log h]
      rfl
    · rw [fetchLoop_stop c f t cnt [] (acc₁ ++ acc₂) log h,
        fetchLoop_stop c f t cnt [] acc₂ log h]
      rfl
  | cons r env ih =>
    intro cnt acc₂ log
    by_cases h : cnt < t
    · cases hok : r.ok
      · rw [fetchLoop_cons_bad c f t cnt r env (acc₁ ++ acc₂) log h hok,
          fetchLoop_cons_bad c f t cnt r env acc₂ log h hok]
        rfl
      · rw [fetchLoop_cons c f t cnt r env (acc₁ ++ acc₂) log h hok,
          fetchLoop_cons c f t cnt r env acc₂ log h hok,
          List.append_assoc]
        exact ih (cnt + (r.resources.length : Int))
          (acc₂ ++ applyLocalFilters c r.resources) (log ++ [Request.fetchReq f])
    · rw [fetchLoop_stop c f t cnt (r :: env) (acc₁ ++ acc₂) log h,
        fetchLoop_stop c f t cnt (r :: env) acc₂ log h]
      rfl

theorem goBuckets_nil (c : CatalogInfo) (env : List CatalogResponse)
    (acc : List PublicationInfo) (log : List Request) :
    goBuckets c [] env acc log = ((acc, none), log) := rfl

theorem goBuckets_nil_env (c : CatalogInfo) (y : String) (rest : List String)
    (acc : List PublicationInfo) (log : List Request) :
    goBuckets c (y :: rest) [] acc log =
      (([], some transportFailMsg), log ++ [Request.countReq (mkFilters c y)]) := rfl

theorem goBuckets_cons_err (c : CatalogInfo) (y : String) (rest : List String)
    (r : CatalogResponse) (env : List CatalogResponse) (acc : List PublicationInfo)
    (log : List Request) (e : String) (hc : publicationsCount r = Except.error e) :
    goBuckets c (y :: rest) (r :: env) acc log =
      (([], some e), log ++ [Request.countReq (mkFilters c y)]) := by
  simp [goBuckets, hc]

theorem goBuckets_cons_zero (c : CatalogInfo) (y : String) (rest : List String)
    (r : CatalogResponse) (env : List CatalogResponse) (acc : List PublicationInfo)
    (log : List Request) (hc : publicationsCount r = Except.ok 0) :
    goBuckets c (y :: rest) (r :: env) acc log =
      goBuckets c rest env acc (log ++ [Request.countReq (mkFilters c y)]) := by
  simp [goBuckets, hc]

theorem goBuckets_cons_fetch (c : CatalogInfo) (y : String) (rest : List String)
    (r : CatalogResponse) (env : List CatalogResponse) (acc : List PublicationInfo)
    (log : List Request) (tC : Int) (hc : publicationsCount r = Except.ok tC)
    (h0 : ¬ tC = 0) :
    goBuckets c (y :: rest) (r :: env) acc log =
      (match fetchLoop c (mkFilters c y) tC 0 env acc
          (log ++ [Request.countReq (mkFilters c y)]) with
       | (Except.error e, log') => (([], some e), log')
       | (Except.ok (acc', currentCount, env''), log') =>
         if currentCount > tC then
           (([], some (mismatchMsg tC currentCount)), log')
         else
           goBuckets c rest env'' acc' log') := by
  simp [goBuckets, hc, h0]

theorem goBuckets_err_nil (c : CatalogInfo) :
    ∀ (years : List String) (env : List CatalogResponse)
      (acc : List PublicationInfo) (log : List Request) (e : String),
      (goBuckets c years env acc log).1.2 = some e →
      (goBuckets c years env acc log).1.1 = [] := by
  intro years
  induction years with
  | nil =>
    intro env acc log e h
    rw [goBuckets_nil] at h
    simp at h
  | cons y rest ih =>
    intro env acc log e h
    match env with
    | [] => rw [goBuckets_nil_env]
    | r :: env' =>
      match hpc : publicationsCount r with
      | Except.error e' => rw [goBuckets_cons_err c y rest r env' acc log e' hpc]
      | Except.ok tC =>
        by_cases h0 : tC = 0
        · subst h0
          rw [goBuckets_cons_zero c y rest r env' acc log hpc] at h ⊢
          exact ih env' acc (log ++ [Request.countReq (mkFilters c y)]) e h
        · rw [goBuckets_cons_fetch c y rest r env' acc log tC hpc h0] at h ⊢
          match hfl : fetchLoop c (mkFilters c y) tC 0 env' acc
              (log ++ [Request.countReq (mkFilters c y)]) with
          | (Except.error e', log') => rfl
          | (Except.ok (acc', currentCount, env''), log') =>
            rw [hfl] at h
            dsimp only at h ⊢
            by_cases hm : currentCount > tC
            · simp only [if_pos hm]
            · simp only [if_neg hm] at h ⊢
              exact ih env'' acc' log' e h

theorem goBuckets_acc_prefix (c : CatalogInfo) (acc₁ : List PublicationInfo) :
    ∀ (years : List String) (env : List CatalogResponse)
      (acc₂ : List PublicationInfo) (log : List Request),
      (goBuckets c years env (acc₁ ++ acc₂) log).2 =
          (goBuckets c years env acc₂ log).2 ∧
      (goBuckets c years env (acc₁ ++ acc₂) log).1 =
        (match (goBuckets c years env acc₂ log).1 with
         | (res, none) => (acc₁ ++ res, none)
         | (res, some e) => (res, some e)) := by
  intro years
  induction years with
  | nil =>
    intro env acc₂ log
    rw [goBuckets_nil, goBuckets_nil]
    exact ⟨rfl, rfl⟩
  | cons y rest ih =>
    intro env acc₂ log
    match env with
    | [] =>
      rw [goBuckets_nil_env, goBuckets_nil_env]
      exact ⟨rfl, rfl⟩
    | r :: env' =>
      match hpc : publicationsCount r with
      | Except.error e' =>
        rw [goBuckets_cons_err c y rest r env' (acc₁ ++ acc₂) log e' hpc,
          goBuckets_cons_err c y rest r env' acc₂ log e' hpc]
        exact ⟨rfl, rfl⟩
      | Except.ok tC =>
        by_cases h0 : tC = 0
        · subst h0
          rw [goBuckets_cons_zero c y rest r env' (acc₁ ++ acc₂) log hpc,
            goBuckets_cons_zero c y rest r env' acc₂ log hpc]
          exact ih env' acc₂ (log ++ [Request.countReq (mkFilters c y)])
        · rw [goBuckets_cons_fetch c y rest r env' (acc₁ ++ acc₂) log tC hpc h0,
            goBuckets_cons_fetch c y rest r env' acc₂ log tC hpc h0,
            fetchLoop_acc_prefix c (mkFilters c y) tC acc₁ env' 0 acc₂
              (log ++ [Request.countReq (mkFilters c y)])]
          match hfl : fetchLoop c (mkFilters c y) tC 0 env' acc₂
              (log ++ [Request.countReq (mkFilters c y)]) with
          | (Except.error e', log') =>
            dsimp only [Except.map]
            constructor <;> trivial
          | (Except.ok (acc', currentCount, env''), log') =>
            dsimp only [Except.map]
            by_cases hm : currentCount > tC
            · simp only [if_pos hm]
              constructor <;> trivial
            · simp only [if_neg hm]
              exact ih env'' acc' log'

theorem countReq_isCount (f : List FacetFilter) :
    Request.isCount (Request.countReq f) = true := rfl

theorem fetchReq_isCount (f : List FacetFilter) :
    Request.isCount (Request.fetchReq f) = false := rfl

theorem countP_append_countReq (log : List Request) (f : List FacetFilter) :
    (log ++ [Request.countReq f]).countP Request.isCount =
      log.countP Request.isCount + 1 := by
  simp [List.countP_append, List.countP_cons, Request.isCount]

theorem goBuckets_countP (c : CatalogInfo) :
    ∀ (years : List String) (env : List CatalogResponse)
      (acc : List PublicationInfo) (log : List Request),
      ((goBuckets c years env acc log).2.countP Request.isCount ≤
        log.countP Request.isCount + years.length) ∧
      ((goBuckets c years env acc log).1.2 = none →
        (goBuckets c years env acc log).2.countP Request.isCount =
          log.countP Request.isCount + years.length) := by
  intro years
  induction years with
  | nil =>
    intro env acc log
    rw [goBuckets_nil]
    exact ⟨by simp, fun _ => by simp⟩
  | cons y rest ih =>
    intro env acc log
    have hcount1 := countP_append_countReq log (mkFilters c y)
    match env with
    | [] =>
      rw [goBuckets_nil_env]
      refine ⟨?_, ?_⟩
      · dsimp only
        rw [hcount1]
        simp only [List.length_cons]
        omega
      · intro h
        simp at h
    | r :: env' =>
      match hpc : publicationsCount r with
      | Except.error e' =>
        rw [goBuckets_cons_err c y rest r env' acc log e' hpc]
        refine ⟨?_, ?_⟩
        · dsimp only
          rw [hcount1]
          simp only [List.length_cons]
          omega
        · intro h
          simp at h
      | Except.ok tC =>
        by_cases h0 : tC = 0
        · subst h0
          rw [goBuckets_cons_zero c y rest r env' acc log hpc]
          obtain ⟨hle, heq⟩ := ih env' acc (log ++ [Request.countReq (mkFilters c y)])
          refine ⟨?_, ?_⟩
          · refine hle.trans ?_
            rw [hcount1]
            simp only [List.length_cons]
            omega
          · intro h
            rw [heq h, hcount1]
            simp only [List.length_cons]
            omega
        · rw [goBuckets_cons_fetch c y rest r env' acc log tC hpc h0]
          obtain ⟨n, hn⟩ := fetchLoop_log_shape c (mkFilters c y) tC env' 0 acc
            (log ++ [Request.countReq (mkFilters c y)])
          have hflc : (fetchLoop c (mkFilters c y) tC 0 env' acc
              (log ++ [Request.countReq (mkFilters c y)])).2.countP Request.isCount =
              log.countP Request.isCount + 1 := by
            rw [hn, List.countP_append, hcount1,
              countP_replicate_zero Request.isCount n _ (fetchReq_isCount _)]
          match hfl : fetchLoop c (mkFilters c y) tC 0 env' acc
              (log ++ [Request.countReq (mkFilters c y)]) with
          | (Except.error e', log') =>
            rw [hfl] at hflc
            dsimp only at hflc ⊢
            refine ⟨?_, ?_⟩
            · rw [hflc]
              simp only [List.length_cons]
              omega
            · intro h
              simp at h
          | (Except.ok (acc', currentCount, env''), log') =>
            rw [hfl] at hflc
            dsimp only at hflc ⊢
            by_cases hm : currentCount > tC
            · simp only [if_pos hm]
              refine ⟨?_, ?_⟩
              · dsimp only
                rw [hflc]
                simp only [List.length_cons]
                omega
              · intro h
                simp at h
            · simp only [if_neg hm]
              obtain ⟨hle, heq⟩ := ih env'' acc' log'
              refine ⟨?_, ?_⟩
              · refine hle.trans ?_
                rw [hflc]
                simp only [List.length_cons]
                omega
              · intro h
                rw [heq h, hflc]
                simp only [List.length_cons]
                omega

/-- C1: whenever `PublicationSearch` returns an error the returned list is
nil — nothing accumulated (in any bucket) survives; in particular, if a
year-bucket's pagination loop ends with a retrieved count exceeding the
expected total, the whole search fails with the count-mismatch error and
every accumulated publication is discarded. -/
theorem publicationSearch_no_partial_results :
    (∀ (c : CatalogInfo) (y : String) (env : List CatalogResponse) (e : String),
        (publicationSearch c y env).1.2 = some e →
        (publicationSearch c y env).1.1 = []) ∧
    (∀ (c : CatalogInfo) (year : String) (rest : List String) (r : CatalogResponse)
        (env' : List CatalogResponse) (acc acc' : List PublicationInfo)
        (log log' : List Request) (totalCount currentCount : Int)
        (env'' : List CatalogResponse),
        publicationsCount r = Except.ok totalCount →
        ¬ totalCount = 0 →
        fetchLoop c (mkFilters c year) totalCount 0 env' acc
            (log ++ [Request.countReq (mkFilters c year)]) =
          (Except.ok (acc', currentCount, env''), log') →
        currentCount > totalCount →
        goBuckets c (year :: rest) (r :: env') acc log =
          (([], some (mismatchMsg totalCount currentCount)), log')) := by
  constructor
  · intro c y env e h
    unfold publicationSearch at h ⊢
    by_cases hv : c.author = "" ∨ c.media = ""
    · rw [if_pos hv]
    · rw [if_neg hv] at h ⊢
      exact goBuckets_err_nil c ["unknown", y] env [] [] e h
  · intro c year rest r env' acc acc' log log' totalCount currentCount env'' hpc h0 hfl hm
    rw [goBuckets_cons_fetch c year rest r env' acc log totalCount hpc h0, hfl]
    dsimp only
    rw [if_pos hm]

/-- Witness for C1: a count of 1 followed by a page of 2 resources makes
the search end in the count-mismatch error with an empty list. -/
theorem publicationSearch_no_partial_results_witness :
    (publicationSearch ⟨"u", "A", "Book"⟩ "2024"
        [⟨true, true, 1, []⟩,
         ⟨true, true, 0, [⟨some "Z", none, none⟩, ⟨some "Z", none, none⟩]⟩]).1.1 = [] ∧
    goBuckets ⟨"u", "A", "Book"⟩ ["2024"]
        [⟨true, true, 1, []⟩,
         ⟨true, true, 0, [⟨some "Z", none, none⟩, ⟨some "Z", none, none⟩]⟩] [] [] =
      (([], some (mismatchMsg 1 2)),
       [Request.countReq (mkFilters ⟨"u", "A", "Book"⟩ "2024"),
        Request.fetchReq (mkFilters ⟨"u", "A", "Book"⟩ "2024")]) := by
  constructor
  · exact publicationSearch_no_partial_results.1 ⟨"u", "A", "Book"⟩ "2024"
      [⟨true, true, 1, []⟩,
       ⟨true, true, 0, [⟨some "Z", none, none⟩, ⟨some "Z", none, none⟩]⟩]
      (mismatchMsg 1 2) rfl
  · exact publicationSearch_no_partial_results.2 ⟨"u", "A", "Book"⟩ "2024" []
      ⟨true, true, 1, []⟩
      [⟨true, true, 0, [⟨some "Z", none, none⟩, ⟨some "Z", none, none⟩]⟩]
      [] [] []
      [Request.countReq (mkFilters ⟨"u", "A", "Book"⟩ "2024"),
       Request.fetchReq (mkFilters ⟨"u", "A", "Book"⟩ "2024")]
      1 2 [] rfl (by decide) rfl (by decide)

/-- C4: a valid query issues exactly one count request per year-bucket on
a successful search (two in total), never more than two count requests in
any run, and a bucket whose count endpoint reports 0 issues no fetch
request and proceeds directly to the next bucket. -/
theorem publicationSearch_count_requests :
    (∀ (c : CatalogInfo) (y : String) (env : List CatalogResponse)
        (res : List PublicationInfo) (log : List Request),
        ¬ (c.author = "" ∨ c.media = "") →
        publicationSearch c y env = ((res, none), log) →
        log.countP Request.isCount = 2) ∧
    (∀ (c : CatalogInfo) (y : String) (env : List CatalogResponse),
        ((publicationSearch c y env).2).countP Request.isCount ≤ 2) ∧
    (∀ (c : CatalogInfo) (year : String) (rest : List String) (r : CatalogResponse)
        (env' : List CatalogResponse) (acc : List PublicationInfo) (log : List Request),
        publicationsCount r = Except.ok 0 →
        goBuckets c (year :: rest) (r :: env') acc log =
          goBuckets c rest env' acc (log ++ [Request.countReq (mkFilters c year)])) := by
  refine ⟨?_, ?_, ?_⟩
  · intro c y env res log hv h
    unfold publicationSearch at h
    rw [if_neg hv] at h
    have hcp := (goBuckets_countP c ["unknown", y] env [] []).2
    rw [h] at hcp
    simpa using hcp rfl
  · intro c y env
    unfold publicationSearch
    by_cases hv : c.author = "" ∨ c.media = ""
    · rw [if_pos hv]
      simp
    · rw [if_neg hv]
      have hcp := (goBuckets_countP c ["unknown", y] env [] []).1
      simpa using hcp
  · intro c year rest r env' acc log hpc
    exact goBuckets_cons_zero c year rest r env' acc log hpc

/-- Witness for C4: a successful run (count 0 for the unknown bucket,
count 1 and one matching resource for the current-year bucket) issues
exactly two count requests; the zero-count bucket skip evaluated
concretely. -/
theorem publicationSearch_count_requests_witness :
    [Request.countReq (mkFilters ⟨"u", "A", "Book"⟩ "unknown"),
     Request.countReq (mkFilters ⟨"u", "A", "Book"⟩ "2024"),
     Request.fetchReq (mkFilters ⟨"u", "A", "Book"⟩ "2024")].countP Request.isCount = 2 ∧
    ((publicationSearch ⟨"u", "A", "Book"⟩ "2024"
        [⟨true, true, 0, []⟩, ⟨true, true, 1, []⟩,
         ⟨true, true, 0, [⟨some "A", some "Book", some "T"⟩]⟩]).2).countP
      Request.isCount ≤ 2 ∧
    goBuckets ⟨"u", "A", "Book"⟩ ["2024"] [⟨true, true, 0, []⟩] [] [] =
      goBuckets ⟨"u", "A", "Book"⟩ [] [] []
        [Request.countReq (mkFilters ⟨"u", "A", "Book"⟩ "2024")] := by
  refine ⟨?_, ?_, ?_⟩
  · exact publicationSearch_count_requests.1 ⟨"u", "A", "Book"⟩ "2024"
      [⟨true, true, 0, []⟩, ⟨true, true, 1, []⟩,
       ⟨true, true, 0, [⟨some "A", some "Book", some "T"⟩]⟩]
      [⟨"Book", "T"⟩]
      [Request.countReq (mkFilters ⟨"u", "A", "Book"⟩ "unknown"),
       Request.countReq (mkFilters ⟨"u", "A", "Book"⟩ "2024"),
       Request.fetchReq (mkFilters ⟨"u", "A", "Book"⟩ "2024")]
      (by decide) rfl
  · exact publicationSearch_count_requests.2.1 ⟨"u", "A", "Book"⟩ "2024"
      [⟨true, true, 0, []⟩, ⟨true, true, 1, []⟩,
       ⟨true, true, 0, [⟨some "A", some "Book", some "T"⟩]⟩]
  · exact publicationSearch_count_requests.2.2 ⟨"u", "A", "Book"⟩ "2024" []
      ⟨true, true, 0, []⟩ [] [] [] rfl

/-- C5: a count response whose success flag is false aborts the whole
search: the bucket issues only its count request (no fetch), no later
bucket is processed, any accumulated results are discarded and the error
is returned with a nil list; stated both for an arbitrary bucket position
(arbitrary accumulator) and for `PublicationSearch` as a whole. -/
theorem countFail_aborts_search :
    (∀ (c : CatalogInfo) (year : String) (rest : List String) (r : CatalogResponse)
        (env' : List CatalogResponse) (acc : List PublicationInfo) (log : List Request),
        r.ok = true → r.success = false →
        goBuckets c (year :: rest) (r :: env') acc log =
          (([], some countFailMsg), log ++ [Request.countReq (mkFilters c year)])) ∧
    (∀ (c : CatalogInfo) (y : String) (r : CatalogResponse) (env : List CatalogResponse),
        ¬ (c.author = "" ∨ c.media = "") → r.ok = true → r.success = false →
        publicationSearch c y (r :: env) =
          (([], some countFailMsg), [Request.countReq (mkFilters c "unknown")])) := by
  constructor
  · intro c year rest r env' acc log hok hsf
    exact goBuckets_cons_err c year rest r env' acc log countFailMsg
      (publicationsCount_of_fail hok hsf)
  · intro c y r env hv hok hsf
    unfold publicationSearch
    rw [if_neg hv]
    have h := goBuckets_cons_err c "unknown" [y] r env [] [] countFailMsg
      (publicationsCount_of_fail hok hsf)
    simpa using h

/-- Witness for C5: the failing count arrives at the second bucket after
the first bucket accumulated a publication; everything is discarded. -/
theorem countFail_aborts_search_witness :
    goBuckets ⟨"u", "A", "Book"⟩ ["2024"] [⟨true, false, 7, []⟩]
        [⟨"Book", "Earlier"⟩] [Request.countReq (mkFilters ⟨"u", "A", "Book"⟩ "unknown")] =
      (([], some countFailMsg),
       [Request.countReq (mkFilters ⟨"u", "A", "Book"⟩ "unknown"),
        Request.countReq (mkFilters ⟨"u", "A", "Book"⟩ "2024")]) ∧
    publicationSearch ⟨"u", "A", "Book"⟩ "2024" [⟨true, false, 7, []⟩] =
      (([], some countFailMsg),
       [Request.countReq (mkFilters ⟨"u", "A", "Book"⟩ "unknown")]) := by
  constructor
  · exact (countFail_aborts_search.1 ⟨"u", "A", "Book"⟩ "2024" [] ⟨true, false, 7, []⟩
      [] [⟨"Book", "Earlier"⟩]
      [Request.countReq (mkFilters ⟨"u", "A", "Book"⟩ "unknown")] rfl rfl).trans rfl
  · exact countFail_aborts_search.2 ⟨"u", "A", "Book"⟩ "2024" ⟨true, false, 7, []⟩ []
      (by decide) rfl rfl

/-- C6: a successful `PublicationSearch` processes the buckets in the
fixed order [unknown, current year]; every bucket's results are appended
after those of earlier buckets; within a bucket each arriving page's kept
resources are appended after the pages before it; and the local filter
preserves page-internal order (it distributes over append). -/
theorem publicationSearch_ordering :
    (∀ (c : CatalogInfo) (y : String) (env : List CatalogResponse),
        ¬ (c.author = "" ∨ c.media = "") →
        publicationSearch c y env = goBuckets c ["unknown", y] env [] []) ∧
    (∀ (c : CatalogInfo) (years : List String) (env : List CatalogResponse)
        (acc : List PublicationInfo) (log : List Request)
        (res : List PublicationInfo) (log' : List Request),
        goBuckets c years env acc log = ((res, none), log') →
        res = acc ++ (goBuckets c years env [] log).1.1) ∧
    (∀ (c : CatalogInfo) (f : List FacetFilter) (t cnt : Int) (r : CatalogResponse)
        (env : List CatalogResponse) (acc : List PublicationInfo) (log : List Request),
        cnt < t → r.ok = true →
        fetchLoop c f t cnt (r :: env) acc log =
          fetchLoop c f t (cnt + (r.resources.length : Int)) env
            (acc ++ applyLocalFilters c r.resources) (log ++ [Request.fetchReq f])) ∧
    (∀ (c : CatalogInfo) (ps₁ ps₂ : List ResourceInfo),
        applyLocalFilters c (ps₁ ++ ps₂) =
          applyLocalFilters c ps₁ ++ applyLocalFilters c ps₂) := by
  refine ⟨?_, ?_, ?_, ?_⟩
  · intro c y env hv
    unfold publicationSearch
    rw [if_neg hv]
  · intro c years env acc log res log' h
    have hap := goBuckets_acc_prefix c acc years env [] log
    rw [List.append_nil] at hap
    obtain ⟨hlog, hres⟩ := hap
    rw [h] at hres
    match h0 : (goBuckets c years env [] log).1 with
    | (res₀, none) =>
      rw [h0] at hres
      dsimp only at hres
      have hfst := congrArg Prod.fst hres
      simpa using hfst
    | (res₀, some e) =>
      rw [h0] at hres
      dsimp only at hres
      have hsnd := congrArg Prod.snd hres
      simp at hsnd
  · intro c f t cnt r env acc log h hok
    exact fetchLoop_cons c f t cnt r env acc log h hok
  · intro c ps₁ ps₂
    simp [applyLocalFilters, List.filterMap_append]

/-- Witness for C6: a current-year bucket appends its kept resource after
the accumulator holding an earlier bucket's result; the fetch step and
the filter's append law evaluated concretely. -/
theorem publicationSearch_ordering_witness :
    publicationSearch ⟨"u", "A", "Book"⟩ "2024" [⟨true, true, 0, []⟩, ⟨true, true, 0, []⟩] =
      goBuckets ⟨"u", "A", "Book"⟩ ["unknown", "2024"]
        [⟨true, true, 0, []⟩, ⟨true, true, 0, []⟩] [] [] ∧
    [⟨"Book", "Prev"⟩, ⟨"Book", "T"⟩] =
      [(⟨"Book", "Prev"⟩ : PublicationInfo)] ++
        (goBuckets ⟨"u", "A", "Book"⟩ ["2024"]
          [⟨true, true, 1, []⟩, ⟨true, true, 0, [⟨some "A", some "Book", some "T"⟩]⟩]
          [] []).1.1 ∧
    fetchLoop ⟨"u", "A", "Book"⟩ (mkFilters ⟨"u", "A", "Book"⟩ "2024") 1 0
        [⟨true, true, 0, [⟨some "A", some "Book", some "T"⟩]⟩] [] [] =
      fetchLoop ⟨"u", "A", "Book"⟩ (mkFilters ⟨"u", "A", "Book"⟩ "2024") 1
        (0 + ((List.length [(⟨some "A", some "Book", some "T"⟩ : ResourceInfo)]) : Int)) []
        ([] ++ applyLocalFilters ⟨"u", "A", "Book"⟩ [⟨some "A", some "Book", some "T"⟩])
        ([] ++ [Request.fetchReq (mkFilters ⟨"u", "A", "Book"⟩ "2024")]) ∧
    applyLocalFilters ⟨"u", "A", "Book"⟩
        ([⟨some "A", some "Book", some "T"⟩] ++ [⟨some "Z", none, none⟩]) =
      applyLocalFilters ⟨"u", "A", "Book"⟩ [⟨some "A", some "Book", some "T"⟩] ++
        applyLocalFilters ⟨"u", "A", "Book"⟩ [⟨some "Z", none, none⟩] := by
  refine ⟨?_, ?_, ?_, ?_⟩
  · exact publicationSearch_ordering.1 ⟨"u", "A", "Book"⟩ "2024"
      [⟨true, true, 0, []⟩, ⟨true, true, 0, []⟩] (by decide)
  · exact publicationSearch_ordering.2.1 ⟨"u", "A", "Book"⟩ ["2024"]
      [⟨true, true, 1, []⟩, ⟨true, true, 0, [⟨some "A", some "Book", some "T"⟩]⟩]
      [⟨"Book", "Prev"⟩] [] [⟨"Book", "Prev"⟩, ⟨"Book", "T"⟩]
      [Request.countReq (mkFilters ⟨"u", "A", "Book"⟩ "2024"),
       Request.fetchReq (mkFilters ⟨"u", "A", "Book"⟩ "2024")] rfl
  · exact publicationSearch_ordering.2.2.1 ⟨"u", "A", "Book"⟩
      (mkFilters ⟨"u", "A", "Book"⟩ "2024") 1 0
      ⟨true, true, 0, [⟨some "A", some "Book", some "T"⟩]⟩ [] [] []
      (by decide) rfl
  · exact publicationSearch_ordering.2.2.2 ⟨"u", "A", "Book"⟩
      [⟨some "A", some "Book", some "T"⟩] [⟨some "Z", none, none⟩]

/-- C10: within a year-bucket, a fetch response with an empty resource
list leaves the loop state (retrieved count and accumulator) unchanged,
so a trace of only empty pages never completes the loop (the model's
finite trace runs out for every trace length — the unbounded loop never
reaches its exit condition); under the precondition that every response
carries at least one resource, the loop issues at most
`expectedTotal - currentCount` fetch requests. -/
theorem fetchLoop_termination_bound :
    (∀ (c : CatalogInfo) (f : List FacetFilter) (t cnt : Int) (r : CatalogResponse)
        (env : List CatalogResponse) (acc : List PublicationInfo) (log : List Request),
        cnt < t → r.ok = true → r.resources = [] →
        fetchLoop c f t cnt (r :: env) acc log =
          fetchLoop c f t cnt env acc (log ++ [Request.fetchReq f])) ∧
    (∀ (c : CatalogInfo) (f : List FacetFilter) (t : Int)
        (acc : List PublicationInfo) (log : List Request) (n : ℕ),
        0 < t →
        (fetchLoop c f t 0 (List.replicate n ⟨true, true, 0, []⟩) acc log).1 =
          Except.error transportFailMsg) ∧
    (∀ (c : CatalogInfo) (f : List FacetFilter) (t : Int) (env : List CatalogResponse),
        (∀ r ∈ env, r.ok = true ∧ r.resources ≠ []) →
        ∀ (cnt : Int) (acc : List PublicationInfo) (log : List Request),
          ((fetchLoop c f t cnt env acc log).2).length ≤
            log.length + (t - cnt).toNat) := by
  refine ⟨?_, ?_, ?_⟩
  · intro c f t cnt r env acc log h hok hr
    rw [fetchLoop_cons c f t cnt r env acc log h hok, hr]
    simp [applyLocalFilters]
  · intro c f t acc log n ht
    induction n generalizing acc log with
    | zero =>
      rw [List.replicate_zero, fetchLoop_nil c f t 0 acc log ht]
    | succ n ih =>
      rw [List.replicate_succ,
        fetchLoop_cons c f t 0 ⟨true, true, 0, []⟩ _ acc log ht rfl]
      simpa [applyLocalFilters] using ih acc (log ++ [Request.fetchReq f])
  · intro c f t env
    induction env with
    | nil =>
      intro _ cnt acc log
      by_cases h : cnt < t
      · rw [fetchLoop_nil c f t cnt acc log h]
        dsimp only
        rw [List.length_append]
        simp only [List.length_cons, List.length_nil]
        omega
      · rw [fetchLoop_stop c f t cnt [] acc log h]
        dsimp only
        omega
    | cons r env ih =>
      intro hall cnt acc log
      obtain ⟨hok, hne⟩ := hall r (List.mem_cons_self r env)
      have ihe := ih fun x hx => hall x (List.mem_cons_of_mem r hx)
      by_cases h : cnt < t
      · rw [fetchLoop_cons c f t cnt r env acc log h hok]
        refine (ihe _ _ _).trans ?_
        rw [List.length_append]
        have hlen : 1 ≤ r.resources.length := by
          match hres : r.resources with
          | [] => exact absurd hres hne
          | a :: l => simp
        simp only [List.length_cons, List.length_nil]
        omega
      · rw [fetchLoop_stop c f t cnt (r :: env) acc log h]
        dsimp only
        omega

/-- Witness for C10: an empty page leaves the state unchanged; two empty
pages never complete a loop expecting one publication; one nonempty page
satisfies the request bound. -/
theorem fetchLoop_termination_bound_witness :
    fetchLoop ⟨"u", "A", "Book"⟩ [] 1 0 [⟨true, true, 0, []⟩] [] [] =
      fetchLoop ⟨"u", "A", "Book"⟩ [] 1 0 [] [] ([] ++ [Request.fetchReq []]) ∧
    (fetchLoop ⟨"u", "A", "Book"⟩ [] 1 0
        (List.replicate 2 ⟨true, true, 0, []⟩) [] []).1 =
      Except.error transportFailMsg ∧
    ((fetchLoop ⟨"u", "A", "Book"⟩ [] 1 0
        [⟨true, true, 0, [⟨some "A", none, none⟩]⟩] [] []).2).length ≤
      ([] : List Request).length + ((1 : Int) - 0).toNat := by
  refine ⟨?_, ?_, ?_⟩
  · exact fetchLoop_termination_bound.1 ⟨"u", "A", "Book"⟩ [] 1 0
      ⟨true, true, 0, []⟩ [] [] [] (by decide) rfl rfl
  · exact fetchLoop_termination_bound.2.1 ⟨"u", "A", "Book"⟩ [] 1 [] [] 2 (by decide)
  · exact fetchLoop_termination_bound.2.2 ⟨"u", "A", "Book"⟩ [] 1
      [⟨true, true, 0, [⟨some "A", none, none⟩]⟩] (by decide) 0 [] []

end GoBooklist
